import Mathlib

/-!
Verification of the SRM attendance capture & offline-sync protocol.

Shallow embedding of:
  * the server endpoints `POST /api/v1/attendance/mark` and
    `POST /api/v1/attendance/sync` (backend variant `src/unnamed/part_002`,
    the one that implements the duplicate check and `already_marked`);
  * the client scanner logic `markAttendanceForLabel`, the offline
    localStorage queue and its flush (`src/attendance_app/scanner.js`,
    second variant, identical to `src/unnamed/part_000`);
  * the confidence computations of the two detection paths.

The authoritative attendance table is modelled as a list of inserted rows;
MySQL-level constraint behaviour is not modelled, only the SQL statements
the JS code issues.
-/

set_option maxHeartbeats 1000000

namespace SRM

/-- The JavaScript value arriving in the `student_id` field of a JSON body:
`null`/missing, a number, or a string. -/
inductive JVal where
  | jnull : JVal
  | jnum : Int → JVal
  | jstr : String → JVal
deriving DecidableEq

/-- Server-side normalisation of `student_id`
(`student_id = student_id ? Number(student_id) : null; if (Number.isNaN(student_id)) student_id = null`):
falsy values (`null`, missing, `0`, `""`) and values whose `Number(...)` is `NaN`
become `null`; the subsequent `if (!student_id)` also treats numeric `0` as absent. -/
def normalizeStudentId : JVal → Option Int
  | .jnull => none
  | .jnum n => if n = 0 then none else some n
  | .jstr s =>
      if s = "" then none
      else match s.toInt? with
        | some n => if n = 0 then none else some n
        | none => none

/-- JS `v || dflt` for string fields: missing, `null` and `""` all fall back. -/
def jsOrDefault (v : Option String) (dflt : String) : String :=
  match v with
  | none => dflt
  | some s => if s = "" then dflt else s

/-- JS `v || null` for the numeric `confidence` field: `0` is falsy and becomes `null`. -/
def jsNumOrNone (v : Option ℚ) : Option ℚ :=
  match v with
  | none => none
  | some q => if q = 0 then none else some q

/-- One row of the `attendance` table, as inserted by the backend. -/
structure Row where
  student_id : Option Int
  date : String
  status : String
  method : String
  confidence : Option ℚ
  marked_by : Int
deriving DecidableEq

/-- The authoritative attendance store (the `attendance` table). -/
abbrev Store := List Row

/-- The auth middleware stub attaches `req.user = { id: 2, role: 'teacher' }`. -/
def teacherId : Int := 2

/-- The JSON body of a `POST /api/v1/attendance/mark` request. -/
structure MarkReq where
  student_id : JVal
  date : Option String
  status : Option String
  method : Option String
  confidence : Option ℚ
deriving DecidableEq

/-- Response of the mark endpoint. -/
inductive MarkResp where
  | invalidPayload
  | alreadyMarked
  | success (student_id : Int) (date : String)
deriving DecidableEq

/-- HTTP status code of each mark response. -/
def MarkResp.httpStatus : MarkResp → Nat
  | .invalidPayload => 400
  | .alreadyMarked => 409
  | .success _ _ => 200

/-- Allowed status values (`['present','absent','late'].includes(...)`). -/
def statusValues : List String := ["present", "absent", "late"]

/-- Effective date: `date = date || today` (ISO day string). -/
def effDate (p : MarkReq) (today : String) : String := jsOrDefault p.date today

/-- Effective status: destructuring default `'present'`, then unrecognised values
are normalised back to `'present'`. -/
def effStatus (p : MarkReq) : String :=
  let st := p.status.getD "present"
  if statusValues.contains st then st else "present"

/-- JS `String.prototype.slice(0, 50)` on the method tag. -/
def slice50 (s : String) : String := ⟨s.data.take 50⟩

/-- Effective method: `String(method || 'face').slice(0, 50)`. -/
def effMethod (p : MarkReq) : String := slice50 (jsOrDefault p.method "face")

/-- The duplicate check `SELECT id FROM attendance WHERE student_id = ? AND date = ? LIMIT 1`. -/
def dupExists (store : Store) (sid : Int) (d : String) : Bool :=
  store.any (fun r => r.student_id == some sid && r.date == d)

/-- The row the mark endpoint inserts. -/
def insertRow (sid : Int) (d status method : String) (conf : Option ℚ) : Row :=
  { student_id := some sid, date := d, status := status, method := method,
    confidence := conf, marked_by := teacherId }

/-- `POST /api/v1/attendance/mark` (src/unnamed/part_002 lines 235-274):
validate `student_id`, normalise `status`/`method`, check for an existing
`(student_id, date)` row (respond 409 `already_marked`), otherwise insert and
respond `{success:true, student_id, date}`. -/
def markAttendance (store : Store) (today : String) (p : MarkReq) : Store × MarkResp :=
  match normalizeStudentId p.student_id with
  | none => (store, .invalidPayload)
  | some sid =>
    if dupExists store sid (effDate p today) then
      (store, .alreadyMarked)
    else
      (store ++ [insertRow sid (effDate p today) (effStatus p) (effMethod p) p.confidence],
        .success sid (effDate p today))

/-- One record of a `POST /api/v1/attendance/sync` body. -/
structure SyncRec where
  student_id : Option Int
  date : Option String
  status : Option String
  method : Option String
  confidence : Option ℚ
deriving DecidableEq

/-- The bulk-insert value row built for each sync record:
`[r.student_id, r.date||today, r.status||'present', r.method||'manual', r.confidence||null, req.user.id]`. -/
def toRow (today : String) (r : SyncRec) : Row :=
  { student_id := r.student_id, date := jsOrDefault r.date today,
    status := jsOrDefault r.status "present", method := jsOrDefault r.method "manual",
    confidence := jsNumOrNone r.confidence, marked_by := teacherId }

/-- Response of the sync endpoint. -/
inductive SyncResp where
  | noRecords
  | ok (inserted : Nat)
deriving DecidableEq

/-- `POST /api/v1/attendance/sync` (src/unnamed/part_001 lines 70-81 and
src/unnamed/part_002 lines 282-295): a missing or empty `records` array is
rejected with 400 `no_records`; otherwise all records are bulk-inserted with
no per-`(student_id, date)` uniqueness check and `inserted` is the count. -/
def syncAttendance (store : Store) (records : Option (List SyncRec)) (today : String) :
    Store × SyncResp :=
  let arr := records.getD []
  if arr.isEmpty then (store, .noRecords)
  else (store ++ arr.map (toRow today), .ok arr.length)

/-- A sequence of sequential mark calls, each with its own server-side `today`. -/
def runMarks (calls : List (String × MarkReq)) : Store :=
  calls.foldl (fun st c => (markAttendance st c.1 c.2).1) []

/-- Number of rows in the store for a given `(student_id, date)` pair. -/
def countSD (store : Store) (S : Int) (D : String) : Nat :=
  (store.filter (fun r => r.student_id == some S && r.date == D)).length

/-! Client side: the scanner's debounce, payload construction and offline queue
(`src/attendance_app/scanner.js` lines 441-517, identical to
`src/unnamed/part_000` lines 198-268). -/

/-- The debounce cooldown: `45*1000` milliseconds. -/
def COOLDOWN_MS : Nat := 45 * 1000

/-- Lookup in the `recentMarks` object (label → last-emitted ms timestamp). -/
def lookupMark (m : List (String × Nat)) (label : String) : Option Nat :=
  (m.find? (fun p => p.1 == label)).map (fun p => p.2)

/-- `recentMarks[label] = now`. -/
def setMark (m : List (String × Nat)) (label : String) (t : Nat) : List (String × Nat) :=
  (label, t) :: m.filter (fun p => !(p.1 == label))

/-- JS `Math.round`: round half towards positive infinity, `⌊q + 1/2⌋`
(written with the computable `Rat.floor`). -/
def jsRound (q : ℚ) : ℤ := Rat.floor (q + 1 / 2)

/-- Confidence sent by `markAttendanceForLabel`: `+(1 - distance).toFixed(3)`,
i.e. `1 - d` rounded to the nearest 0.001 (round half up, the JS rule for
non-negative values). -/
def confMarkLabel (d : ℚ) : ℚ := ((jsRound ((1 - d) * 1000) : ℤ) : ℚ) / 1000

/-- Confidence computed by the batch detection loop
(`src/attendance_app/scanner.js` line 259):
`Math.round((1 - distance) * 10000) / 100`, a percentage. -/
def confScannerBatch (d : ℚ) : ℚ := ((jsRound ((1 - d) * 10000) : ℤ) : ℚ) / 100

/-- One entry of the `offline_attendance` localStorage queue. -/
structure QueuedRecord where
  roll_number : Option String
  student_id : Option Int
  date : String
  timestamp : String
  status : String
  method : String
  confidence : ℚ
  synced : Bool
deriving DecidableEq

/-- Client state touched by `markAttendanceForLabel`: the `recentMarks`
debounce map and the offline queue. -/
structure ClientState where
  recentMarks : List (String × Nat)
  queue : List QueuedRecord
deriving DecidableEq

/-- Outcome of the network mark request as observed by the client:
`fetch` resolves OK, resolves with a non-2xx status (for example 409
`already_marked`), or rejects (server unreachable). -/
inductive NetResult where
  | ok
  | httpError (status : Nat) (errCode : String)
  | netFail
deriving DecidableEq

/-- Result of one `markAttendanceForLabel` call: the new client state, whether
the call passed the debounce (an emission), and whether a network mark request
was issued. -/
structure StepResult where
  state : ClientState
  emitted : Bool
  requestSent : Bool
deriving DecidableEq

/-- The debounce test
`recentMarks[label] && (now - recentMarks[label] < 45*1000)`:
a stored timestamp of `0` is falsy in JS, so it does not suppress. -/
def debounceSuppressed (s : ClientState) (label : String) (now : Nat) : Bool :=
  match lookupMark s.recentMarks label with
  | none => false
  | some t => (!(t == 0)) && decide (now - t < COOLDOWN_MS)

/-- Label resolution `labelToStudentId.get(label)` followed by the falsy check
`if (!studentId)`: an id of `0` counts as unresolved. -/
def resolveLabel (resolve : String → Option Int) (label : String) : Option Int :=
  match resolve label with
  | none => none
  | some i => if i = 0 then none else some i

/-- `markAttendanceForLabel(label, distance)`
(`src/attendance_app/scanner.js` lines 470-517):
debounce on `recentMarks`, record the timestamp immediately, resolve the label,
build the payload; an unresolved label is queued with `roll_number` and no
request is sent; otherwise a mark request is issued and any non-OK response or
network failure enqueues the payload with `synced:false`. -/
def markAttendanceForLabel (resolve : String → Option Int) (s : ClientState)
    (label : String) (distance : ℚ) (now : Nat) (nowIso today : String)
    (net : NetResult) : StepResult :=
  if debounceSuppressed s label now then
    { state := s, emitted := false, requestSent := false }
  else
    let marks := setMark s.recentMarks label now
    let conf := confMarkLabel distance
    match resolveLabel resolve label with
    | none =>
        { state := { recentMarks := marks,
                     queue := s.queue ++ [{ roll_number := some label, student_id := none,
                                            date := today, timestamp := nowIso,
                                            status := "present", method := "face",
                                            confidence := conf, synced := false }] },
          emitted := true, requestSent := false }
    | some i =>
        match net with
        | .ok =>
            { state := { recentMarks := marks, queue := s.queue },
              emitted := true, requestSent := true }
        | _ =>
            { state := { recentMarks := marks,
                         queue := s.queue ++ [{ roll_number := none, student_id := some i,
                                                date := today, timestamp := nowIso,
                                                status := "present", method := "face",
                                                confidence := conf, synced := false }] },
              emitted := true, requestSent := true }

/-! The offline round trip: `queueAttendance` pushes onto the local queue while
the server is unreachable; `syncOfflineQueue` (and the sync button handler)
reads the whole queue, POSTs it to `/attendance/sync`, and clears the queue on
success. -/

/-- Combined client-queue / server-store state. -/
structure SysState where
  queue : List QueuedRecord
  store : Store
deriving DecidableEq

/-- `queueAttendance(item)`: push onto `offline_attendance` (server untouched). -/
def enqueueOffline (sys : SysState) (r : QueuedRecord) : SysState :=
  { sys with queue := sys.queue ++ [r] }

/-- Enqueue a batch of records while the server is unreachable. -/
def enqueueAll (sys : SysState) (rs : List QueuedRecord) : SysState :=
  rs.foldl enqueueOffline sys

/-- The JSON fields of a queued record as read by the sync endpoint. -/
def queuedToSync (q : QueuedRecord) : SyncRec :=
  { student_id := q.student_id, date := some q.date, status := some q.status,
    method := some q.method, confidence := some q.confidence }

/-- Client-visible outcome of a flush attempt. -/
inductive SyncOutcome where
  | nothingToSync
  | synced (resp : SyncResp)
  | failed
deriving DecidableEq

/-- `syncOfflineQueue()` (`src/attendance_app/scanner.js` lines 448-467, same
shape as the sync-button handler lines 123-144): an empty queue returns
`{synced: 0}` without a request; otherwise the whole queue is POSTed to the
sync endpoint and, on success, the local queue is cleared; on failure the
queue is kept. -/
def syncOfflineQueue (sys : SysState) (today : String) (net : NetResult) :
    SysState × SyncOutcome :=
  if sys.queue.isEmpty then (sys, .nothingToSync)
  else
    match net with
    | .ok =>
        let res := syncAttendance sys.store (some (sys.queue.map queuedToSync)) today
        ({ queue := [], store := res.1 }, .synced res.2)
    | _ => (sys, .failed)

/-- The record built per selected student by the manual-session submit handler
(`src/unnamed/part_000` lines 397-405): `confidence: null`, `method: 'manual'`. -/
def manualSessionRecord (id : Int) (today : String) : SyncRec :=
  { student_id := some id, date := some today, status := some "present",
    method := some "manual", confidence := none }

/-! Helper lemmas. -/

theorem ratFloor_eq_intFloor (q : ℚ) : Rat.floor q = ⌊q⌋ := by
  rw [Rat.floor_def' q, Rat.floor_def]

theorem jsRound_eq_round (q : ℚ) : jsRound q = round q := by
  rw [jsRound, ratFloor_eq_intFloor, round_eq]

/-- A store with no `(S, D)` duplicate according to `dupExists` has no `(S, D)` row. -/
theorem countSD_eq_zero_of_dupExists_false (store : Store) (S : Int) (D : String)
    (h : dupExists store S D = false) : countSD store S D = 0 := by
  unfold dupExists at h
  unfold countSD
  rw [List.length_eq_zero]
  rw [List.filter_eq_nil_iff]
  intro r hr
  have := List.any_eq_false.mp h r hr
  simpa using this

/-- One mark call preserves the per-`(student_id, date)` uniqueness bound. -/
theorem countSD_markAttendance_le (store : Store) (today : String) (p : MarkReq)
    (S : Int) (D : String) (h : countSD store S D ≤ 1) :
    countSD (markAttendance store today p).1 S D ≤ 1 := by
  unfold markAttendance
  cases hn : normalizeStudentId p.student_id with
  | none => simpa using h
  | some sid =>
    by_cases hdup : dupExists store sid (effDate p today) = true
    · simp only [hdup, if_true]
      exact h
    · rw [Bool.not_eq_true] at hdup
      simp only [hdup, Bool.false_eq_true, if_false]
      by_cases hS : sid = S
      · by_cases hD : effDate p today = D
        · subst hS; subst hD
          have h0 := countSD_eq_zero_of_dupExists_false store sid (effDate p today) hdup
          unfold countSD at h0 ⊢
          rw [List.filter_append, List.length_append, h0]
          simp [insertRow]
        · unfold countSD
          rw [List.filter_append, List.length_append]
          have : ([insertRow sid (effDate p today) (effStatus p) (effMethod p)
              p.confidence].filter (fun r => r.student_id == some S && r.date == D)) = [] := by
            simp [insertRow, hD]
          rw [this]
          simpa using h
      · unfold countSD
        rw [List.filter_append, List.length_append]
        have : ([insertRow sid (effDate p today) (effStatus p) (effMethod p)
            p.confidence].filter (fun r => r.student_id == some S && r.date == D)) = [] := by
          simp [insertRow, hS]
        rw [this]
        simpa using h

/-- Folding mark calls over a store preserves the uniqueness bound. -/
theorem countSD_foldl_le (calls : List (String × MarkReq)) (store : Store)
    (S : Int) (D : String) (h : countSD store S D ≤ 1) :
    countSD (calls.foldl (fun st c => (markAttendance st c.1 c.2).1) store) S D ≤ 1 := by
  induction calls generalizing store with
  | nil => exact h
  | cons c cs ih =>
    exact ih _ (countSD_markAttendance_le store c.1 c.2 S D h)

/-- C1: for every sequence of sequential calls to the single-record mark
endpoint against an initially empty attendance store, and for every student id
`S` and date `D`, at most one attendance record with pair `(S, D)` exists in
the store afterwards, regardless of the number and order of calls. -/
theorem mark_sequence_per_day_unique (calls : List (String × MarkReq))
    (S : Int) (D : String) : countSD (runMarks calls) S D ≤ 1 := by
  unfold runMarks
  apply countSD_foldl_le
  simp [countSD]

/-- C2: `mark(42, 2024-03-01, present, face, 0.91)` on an empty store succeeds
with `{success:true, student_id:42, date:"2024-03-01"}`; the identical repeat
yields a 409 `already_marked` conflict with no new row inserted; a third call
with `studentId = 43` on the same date succeeds independently. -/
theorem mark_conflict_scenario :
    (markAttendance [] "2024-03-01"
        { student_id := .jnum 42, date := some "2024-03-01", status := some "present",
          method := some "face", confidence := some (91/100) }).2
      = .success 42 "2024-03-01" ∧
    ((markAttendance [] "2024-03-01"
        { student_id := .jnum 42, date := some "2024-03-01", status := some "present",
          method := some "face", confidence := some (91/100) }).2).httpStatus = 200 ∧
    (markAttendance
        (markAttendance [] "2024-03-01"
          { student_id := .jnum 42, date := some "2024-03-01", status := some "present",
            method := some "face", confidence := some (91/100) }).1
        "2024-03-01"
        { student_id := .jnum 42, date := some "2024-03-01", status := some "present",
          method := some "face", confidence := some (91/100) }).2
      = .alreadyMarked ∧
    (MarkResp.alreadyMarked).httpStatus = 409 ∧
    (markAttendance
        (markAttendance [] "2024-03-01"
          { student_id := .jnum 42, date := some "2024-03-01", status := some "present",
            method := some "face", confidence := some (91/100) }).1
        "2024-03-01"
        { student_id := .jnum 42, date := some "2024-03-01", status := some "present",
          method := some "face", confidence := some (91/100) }).1
      = (markAttendance [] "2024-03-01"
          { student_id := .jnum 42, date := some "2024-03-01", status := some "present",
            method := some "face", confidence := some (91/100) }).1 ∧
    (markAttendance
        (markAttendance [] "2024-03-01"
          { student_id := .jnum 42, date := some "2024-03-01", status := some "present",
            method := some "face", confidence := some (91/100) }).1
        "2024-03-01"
        { student_id := .jnum 43, date := some "2024-03-01", status := some "present",
          method := some "face", confidence := some (9/10) }).2
      = .success 43 "2024-03-01" :=
  ⟨rfl, rfl, rfl, rfl, rfl, rfl⟩

/-- C4: a mark request whose `student_id` is missing or non-numeric is rejected
with 400 `invalid_payload` and the attendance store is unchanged. -/
theorem invalid_payload_rejected (store : Store) (today : String) (p : MarkReq)
    (h : normalizeStudentId p.student_id = none) :
    markAttendance store today p = (store, .invalidPayload) ∧
    ((markAttendance store today p).2).httpStatus = 400 := by
  constructor
  · unfold markAttendance
    rw [h]
  · unfold markAttendance
    rw [h]
    rfl

/-- C4 witness: `{studentId: null}` is concretely rejected with 400
`invalid_payload` and an empty store stays empty. -/
theorem invalid_payload_rejected_witness :
    normalizeStudentId JVal.jnull = none ∧
    (markAttendance [] "2024-03-01"
        { student_id := .jnull, date := none, status := none, method := none,
          confidence := none }
      = ([], .invalidPayload) ∧
    ((markAttendance [] "2024-03-01"
        { student_id := .jnull, date := none, status := none, method := none,
          confidence := none }).2).httpStatus = 400) :=
  ⟨rfl, invalid_payload_rejected [] "2024-03-01"
    { student_id := .jnull, date := none, status := none, method := none,
      confidence := none } rfl⟩

/-- C6: the batch sync endpoint rejects a missing or empty `records` array with
`no_records` and inserts nothing; a non-empty array is bulk-inserted wholesale
(appended without any per-`(studentId, date)` uniqueness check) with `inserted`
equal to the number of submitted records. -/
theorem sync_bulk_no_dedup (store : Store) (today : String) (rs : List SyncRec)
    (h : rs ≠ []) :
    syncAttendance store none today = (store, .noRecords) ∧
    syncAttendance store (some []) today = (store, .noRecords) ∧
    syncAttendance store (some rs) today
      = (store ++ rs.map (toRow today), .ok rs.length) := by
  refine ⟨rfl, rfl, ?_⟩
  unfold syncAttendance
  cases rs with
  | nil => exact absurd rfl h
  | cons a l => rfl

/-- C6 witness: a duplicate of an already-stored `(7, 2024-03-01)` row is
bulk-inserted anyway (no uniqueness check) and `inserted` is 1; an empty or
missing array is rejected. -/
theorem sync_bulk_no_dedup_witness :
    ([{ student_id := some 7, date := some "2024-03-01", status := some "present",
        method := some "face", confidence := none }] : List SyncRec) ≠ [] ∧
    (syncAttendance [toRow "2024-03-01"
          { student_id := some 7, date := some "2024-03-01", status := some "present",
            method := some "face", confidence := none }] none "2024-03-01"
        = ([toRow "2024-03-01"
            { student_id := some 7, date := some "2024-03-01", status := some "present",
              method := some "face", confidence := none }], .noRecords) ∧
    syncAttendance [toRow "2024-03-01"
          { student_id := some 7, date := some "2024-03-01", status := some "present",
            method := some "face", confidence := none }] (some []) "2024-03-01"
        = ([toRow "2024-03-01"
            { student_id := some 7, date := some "2024-03-01", status := some "present",
              method := some "face", confidence := none }], .noRecords) ∧
    syncAttendance [toRow "2024-03-01"
          { student_id := some 7, date := some "2024-03-01", status := some "present",
            method := some "face", confidence := none }]
        (some [{ student_id := some 7, date := some "2024-03-01", status := some "present",
                 method := some "face", confidence := none }]) "2024-03-01"
        = ([toRow "2024-03-01"
              { student_id := some 7, date := some "2024-03-01", status := some "present",
                method := some "face", confidence := none },
            toRow "2024-03-01"
              { student_id := some 7, date := some "2024-03-01", status := some "present",
                method := some "face", confidence := none }], .ok 1)) :=
  ⟨List.cons_ne_nil _ _,
    sync_bulk_no_dedup _ "2024-03-01" _ (List.cons_ne_nil _ _)⟩

/-! Client step lemmas. -/

theorem lookupMark_setMark (m : List (String × Nat)) (label : String) (t : Nat) :
    lookupMark (setMark m label t) label = some t := by
  simp [lookupMark, setMark, List.find?]

/-- When the debounce accepts, every branch of `markAttendanceForLabel` records
the timestamp and counts as an emission. -/
theorem markStep_accepted (resolve : String → Option Int) (s : ClientState)
    (label : String) (distance : ℚ) (now : Nat) (nowIso today : String)
    (net : NetResult) (h : debounceSuppressed s label now = false) :
    (markAttendanceForLabel resolve s label distance now nowIso today net).state.recentMarks
      = setMark s.recentMarks label now ∧
    (markAttendanceForLabel resolve s label distance now nowIso today net).emitted = true := by
  unfold markAttendanceForLabel
  rw [h]
  cases hr : resolveLabel resolve label with
  | none => simp
  | some i => cases net <;> simp

/-- When the debounce suppresses, the call does nothing at all. -/
theorem markStep_suppressed (resolve : String → Option Int) (s : ClientState)
    (label : String) (distance : ℚ) (now : Nat) (nowIso today : String)
    (net : NetResult) (h : debounceSuppressed s label now = true) :
    markAttendanceForLabel resolve s label distance now nowIso today net
      = { state := s, emitted := false, requestSent := false } := by
  unfold markAttendanceForLabel
  rw [h]
  rfl

/-- After an accepted emission at a positive time `t`, the debounce suppresses
a second event at `t + δ` exactly when `δ < COOLDOWN_MS`. -/
theorem debounce_after_accept (resolve : String → Option Int) (s : ClientState)
    (label : String) (distance : ℚ) (t δ : Nat) (nowIso today : String)
    (net : NetResult) (h : debounceSuppressed s label t = false) (ht : 0 < t) :
    debounceSuppressed
        (markAttendanceForLabel resolve s label distance t nowIso today net).state
        label (t + δ)
      = decide (δ < COOLDOWN_MS) := by
  have hm := (markStep_accepted resolve s label distance t nowIso today net h).1
  unfold debounceSuppressed
  rw [hm, lookupMark_setMark]
  have ht0 : (t == 0) = false := by
    simp only [beq_eq_false_iff_ne, ne_eq]
    omega
  have hsub : t + δ - t = δ := by omega
  simp only [ht0, hsub, Bool.not_false, Bool.true_and]

/-- C5: for a label whose detection at time `t` passes the debounce, the
emission is accepted and `lastEmitted(label)` is set to `t`; a second detection
at `t + δ` is suppressed when `δ < COOLDOWN_MS` (45 s) and accepted when
`δ ≥ COOLDOWN_MS`, in which case `lastEmitted(label)` becomes `t + δ`. -/
theorem debounce_window (resolve resolve2 : String → Option Int) (s : ClientState)
    (label : String) (d d2 : ℚ) (t δ : Nat) (iso iso2 today today2 : String)
    (net net2 : NetResult)
    (h : debounceSuppressed s label t = false) (ht : 0 < t) :
    (markAttendanceForLabel resolve s label d t iso today net).emitted = true ∧
    lookupMark
        (markAttendanceForLabel resolve s label d t iso today net).state.recentMarks label
      = some t ∧
    (δ < COOLDOWN_MS →
      (markAttendanceForLabel resolve2
          (markAttendanceForLabel resolve s label d t iso today net).state
          label d2 (t + δ) iso2 today2 net2).emitted = false) ∧
    (COOLDOWN_MS ≤ δ →
      (markAttendanceForLabel resolve2
          (markAttendanceForLabel resolve s label d t iso today net).state
          label d2 (t + δ) iso2 today2 net2).emitted = true ∧
      lookupMark
          (markAttendanceForLabel resolve2
            (markAttendanceForLabel resolve s label d t iso today net).state
            label d2 (t + δ) iso2 today2 net2).state.recentMarks label
        = some (t + δ)) := by
  obtain ⟨hm, he⟩ := markStep_accepted resolve s label d t iso today net h
  refine ⟨he, by rw [hm, lookupMark_setMark], ?_, ?_⟩
  · intro hδ
    have hsup : debounceSuppressed
        (markAttendanceForLabel resolve s label d t iso today net).state label (t + δ)
        = true := by
      rw [debounce_after_accept resolve s label d t δ iso today net h ht]
      simpa using hδ
    rw [markStep_suppressed resolve2 _ label d2 (t + δ) iso2 today2 net2 hsup]
  · intro hδ
    have hsup : debounceSuppressed
        (markAttendanceForLabel resolve s label d t iso today net).state label (t + δ)
        = false := by
      rw [debounce_after_accept resolve s label d t δ iso today net h ht]
      simpa using Nat.not_lt.mpr hδ
    obtain ⟨hm2, he2⟩ := markStep_accepted resolve2 _ label d2 (t + δ) iso2 today2 net2 hsup
    exact ⟨he2, by rw [hm2, lookupMark_setMark]⟩

/-- C5 witness: first detection of label `A` at t = 1000 ms emits and records
the timestamp; a repeat 44999 ms later is suppressed. -/
theorem debounce_window_witness :
    debounceSuppressed { recentMarks := [], queue := [] } "A" 1000 = false ∧ 0 < 1000 ∧
    ((markAttendanceForLabel (fun _ => none) { recentMarks := [], queue := [] }
        "A" 0 1000 "T" "D" .ok).emitted = true ∧
    lookupMark
        (markAttendanceForLabel (fun _ => none) { recentMarks := [], queue := [] }
          "A" 0 1000 "T" "D" .ok).state.recentMarks "A"
      = some 1000 ∧
    (44999 < COOLDOWN_MS →
      (markAttendanceForLabel (fun _ => none)
          (markAttendanceForLabel (fun _ => none) { recentMarks := [], queue := [] }
            "A" 0 1000 "T" "D" .ok).state
          "A" 0 (1000 + 44999) "T2" "D" .ok).emitted = false) ∧
    (COOLDOWN_MS ≤ 44999 →
      (markAttendanceForLabel (fun _ => none)
          (markAttendanceForLabel (fun _ => none) { recentMarks := [], queue := [] }
            "A" 0 1000 "T" "D" .ok).state
          "A" 0 (1000 + 44999) "T2" "D" .ok).emitted = true ∧
      lookupMark
          (markAttendanceForLabel (fun _ => none)
            (markAttendanceForLabel (fun _ => none) { recentMarks := [], queue := [] }
              "A" 0 1000 "T" "D" .ok).state
            "A" 0 (1000 + 44999) "T2" "D" .ok).state.recentMarks "A"
        = some (1000 + 44999))) :=
  ⟨rfl, by decide,
    debounce_window (fun _ => none) (fun _ => none) { recentMarks := [], queue := [] }
      "A" 0 0 1000 44999 "T" "T2" "D" "D" .ok .ok rfl (by decide)⟩

/-- C10: `markAttendanceForLabel` records the cooldown timestamp as soon as the
debounce accepts — before identity resolution and before any network request —
so any second detection of the same label within the 45-second window is a
complete no-op (no emission, no request, state unchanged) regardless of how the
first attempt ended: success, HTTP error, network failure, or an unresolved
student id. -/
theorem cooldown_blocks_retry (resolve resolve2 : String → Option Int)
    (s : ClientState) (label : String) (d d2 : ℚ) (t δ : Nat)
    (iso iso2 today today2 : String) (net net2 : NetResult)
    (h : debounceSuppressed s label t = false) (ht : 0 < t)
    (hδ : δ < COOLDOWN_MS) :
    markAttendanceForLabel resolve2
        (markAttendanceForLabel resolve s label d t iso today net).state
        label d2 (t + δ) iso2 today2 net2
      = { state := (markAttendanceForLabel resolve s label d t iso today net).state,
          emitted := false, requestSent := false } := by
  apply markStep_suppressed
  rw [debounce_after_accept resolve s label d t δ iso today net h ht]
  simpa using hδ

/-- C10 witness: the first attempt for label `B` fails at the network layer
(and is queued), yet a second detection 10 ms later is fully suppressed. -/
theorem cooldown_blocks_retry_witness :
    debounceSuppressed { recentMarks := [], queue := [] } "B" 1000 = false ∧
    0 < 1000 ∧ 10 < COOLDOWN_MS ∧
    markAttendanceForLabel (fun _ => some 7)
        (markAttendanceForLabel (fun _ => some 7) { recentMarks := [], queue := [] }
          "B" 0 1000 "T" "D" .netFail).state
        "B" 0 (1000 + 10) "T2" "D" .netFail
      = { state := (markAttendanceForLabel (fun _ => some 7)
            { recentMarks := [], queue := [] } "B" 0 1000 "T" "D" .netFail).state,
          emitted := false, requestSent := false } :=
  ⟨rfl, by decide, by decide,
    cooldown_blocks_retry (fun _ => some 7) (fun _ => some 7)
      { recentMarks := [], queue := [] } "B" 0 0 1000 10 "T" "T2" "D" "D"
      .netFail .netFail rfl (by decide) (by decide)⟩

/-- C8: a detection whose label cannot be resolved to a known student id is not
discarded and triggers no network mark request: the client appends a record
carrying the raw label as `roll_number`, with `student_id` null and
`synced = false`, to the offline queue. -/
theorem unresolved_label_queued (resolve : String → Option Int) (s : ClientState)
    (label : String) (d : ℚ) (t : Nat) (iso today : String) (net : NetResult)
    (h : debounceSuppressed s label t = false)
    (hr : resolveLabel resolve label = none) :
    (markAttendanceForLabel resolve s label d t iso today net).requestSent = false ∧
    (markAttendanceForLabel resolve s label d t iso today net).state.queue
      = s.queue ++ [{ roll_number := some label, student_id := none,
                      date := today, timestamp := iso, status := "present",
                      method := "face", confidence := confMarkLabel d,
                      synced := false }] := by
  unfold markAttendanceForLabel
  rw [h, hr]
  exact ⟨rfl, rfl⟩

/-- C8 witness: label `R-77` resolves to no student id; the detection is queued
with the raw label and no request is sent. -/
theorem unresolved_label_queued_witness :
    debounceSuppressed { recentMarks := [], queue := [] } "R-77" 1000 = false ∧
    resolveLabel (fun _ => none) "R-77" = none ∧
    ((markAttendanceForLabel (fun _ => none) { recentMarks := [], queue := [] }
        "R-77" 0 1000 "T" "2024-03-01" .netFail).requestSent = false ∧
    (markAttendanceForLabel (fun _ => none) { recentMarks := [], queue := [] }
        "R-77" 0 1000 "T" "2024-03-01" .netFail).state.queue
      = [] ++ [{ roll_number := some "R-77", student_id := none,
                 date := "2024-03-01", timestamp := "T", status := "present",
                 method := "face", confidence := confMarkLabel 0,
                 synced := false }]) :=
  ⟨rfl, rfl,
    unresolved_label_queued (fun _ => none) { recentMarks := [], queue := [] }
      "R-77" 0 1000 "T" "2024-03-01" .netFail rfl rfl⟩

/-- C3 (divergence witness): when the mark endpoint answers 409
`already_marked`, `markAttendanceForLabel` takes its generic `!resp.ok` error
branch and DOES push the record onto the offline queue — the queue grows from
the duplicate attempt, contradicting the required success-equivalent handling. -/
theorem conflict_response_requeues :
    (markAttendanceForLabel (fun _ => some 42) { recentMarks := [], queue := [] }
        "42" 0 1000 "T" "2024-03-01" (.httpError 409 "already_marked")).state.queue
      = [{ roll_number := none, student_id := some 42, date := "2024-03-01",
           timestamp := "T", status := "present", method := "face",
           confidence := confMarkLabel 0, synced := false }] ∧
    (markAttendanceForLabel (fun _ => some 42) { recentMarks := [], queue := [] }
        "42" 0 1000 "T" "2024-03-01" (.httpError 409 "already_marked")).state.queue.length
      = 1 :=
  ⟨rfl, rfl⟩

/-- Pairwise-distinct `(studentId, date)` pairs among queued records. -/
def distinctPairs (rs : List QueuedRecord) : Prop :=
  rs.Pairwise (fun a b => ¬(a.student_id = b.student_id ∧ a.date = b.date))

theorem enqueueAll_spec (sys : SysState) (rs : List QueuedRecord) :
    enqueueAll sys rs = { queue := sys.queue ++ rs, store := sys.store } := by
  induction rs generalizing sys with
  | nil => simp [enqueueAll]
  | cons r rest ih =>
    unfold enqueueAll at ih ⊢
    rw [List.foldl_cons, ih]
    simp [enqueueOffline]

/-- C7: enqueue `N` records (with distinct `(studentId, date)` pairs) while the
server is unreachable, then flush with the server reachable and answering
success: afterwards the server store holds exactly the `N` new records appended
to its previous contents and the local offline queue is empty. -/
theorem offline_round_trip (store0 : Store) (today : String)
    (rs : List QueuedRecord) (h : distinctPairs rs) :
    (syncOfflineQueue (enqueueAll { queue := [], store := store0 } rs) today .ok).1.queue
      = [] ∧
    (syncOfflineQueue (enqueueAll { queue := [], store := store0 } rs) today .ok).1.store
      = store0 ++ (rs.map queuedToSync).map (toRow today) ∧
    (syncOfflineQueue (enqueueAll { queue := [], store := store0 } rs) today .ok).1.store.length
      = store0.length + rs.length := by
  rw [enqueueAll_spec]
  simp only [List.nil_append]
  cases rs with
  | nil => simp [syncOfflineQueue]
  | cons r rest =>
    unfold syncOfflineQueue
    simp only [List.isEmpty_cons, Bool.false_eq_true, if_false]
    unfold syncAttendance
    simp [List.length_map]

/-- C7 witness: two queued records with distinct student ids for the same date
round-trip into exactly two new server rows and an empty local queue. -/
theorem offline_round_trip_witness :
    distinctPairs
      [{ roll_number := none, student_id := some 1, date := "2024-03-01",
         timestamp := "T1", status := "present", method := "face",
         confidence := 1, synced := false },
       { roll_number := none, student_id := some 2, date := "2024-03-01",
         timestamp := "T2", status := "present", method := "face",
         confidence := 1, synced := false }] ∧
    ((syncOfflineQueue (enqueueAll { queue := [], store := [] }
        [{ roll_number := none, student_id := some 1, date := "2024-03-01",
           timestamp := "T1", status := "present", method := "face",
           confidence := 1, synced := false },
         { roll_number := none, student_id := some 2, date := "2024-03-01",
           timestamp := "T2", status := "present", method := "face",
           confidence := 1, synced := false }]) "2024-03-01" .ok).1.queue = [] ∧
    (syncOfflineQueue (enqueueAll { queue := [], store := [] }
        [{ roll_number := none, student_id := some 1, date := "2024-03-01",
           timestamp := "T1", status := "present", method := "face",
           confidence := 1, synced := false },
         { roll_number := none, student_id := some 2, date := "2024-03-01",
           timestamp := "T2", status := "present", method := "face",
           confidence := 1, synced := false }]) "2024-03-01" .ok).1.store
      = [] ++ (([{ roll_number := none, student_id := some 1, date := "2024-03-01",
                   timestamp := "T1", status := "present", method := "face",
                   confidence := 1, synced := false },
                 { roll_number := none, student_id := some 2, date := "2024-03-01",
                   timestamp := "T2", status := "present", method := "face",
                   confidence := 1, synced := false }] : List QueuedRecord).map
              queuedToSync).map (toRow "2024-03-01") ∧
    (syncOfflineQueue (enqueueAll { queue := [], store := [] }
        [{ roll_number := none, student_id := some 1, date := "2024-03-01",
           timestamp := "T1", status := "present", method := "face",
           confidence := 1, synced := false },
         { roll_number := none, student_id := some 2, date := "2024-03-01",
           timestamp := "T2", status := "present", method := "face",
           confidence := 1, synced := false }]) "2024-03-01" .ok).1.store.length
      = List.length ([] : Store) + 2) :=
  ⟨by simp [distinctPairs],
    offline_round_trip [] "2024-03-01"
      [{ roll_number := none, student_id := some 1, date := "2024-03-01",
         timestamp := "T1", status := "present", method := "face",
         confidence := 1, synced := false },
       { roll_number := none, student_id := some 2, date := "2024-03-01",
         timestamp := "T2", status := "present", method := "face",
         confidence := 1, synced := false }] (by simp [distinctPairs])⟩

/-- Rounding a rational in `[0, M]` stays in `[0, M]`. -/
theorem round_nonneg_le (x : ℚ) (M : ℤ) (h0 : 0 ≤ x) (h1 : x ≤ M) :
    0 ≤ round x ∧ round x ≤ M := by
  rw [round_eq]
  refine ⟨Int.le_floor.mpr (by push_cast; linarith), ?_⟩
  have hlt : ⌊x + 1/2⌋ < M + 1 := Int.floor_lt.mpr (by push_cast; linarith)
  omega

/-- C9 counterexample: at match distance `d = 1/2`, the batch detection loop
stores confidence `50` — the percentage `(1 − d)·100` — which is neither equal
to `1 − d = 1/2` nor within `[0, 1]`. -/
theorem batch_confidence_counterexample :
    confScannerBatch (1/2) = 50 ∧
    ¬ confScannerBatch (1/2) = 1 - (1/2 : ℚ) ∧
    ¬ confScannerBatch (1/2) ≤ 1 := by
  have h : confScannerBatch (1/2) = 50 := by
    rw [confScannerBatch, jsRound_eq_round]
    norm_num
  refine ⟨h, ?_, ?_⟩
  · rw [h]; norm_num
  · rw [h]; norm_num

/-- C9 (amended): for `d ∈ [0,1]`, the single-mark face path stores
`(1 − d)` rounded to 3 decimal places — within `1/2000` of `1 − d` and in
`[0, 1]` — while the batch detection path stores the percentage `(1 − d)·100`
rounded to 2 decimal places, in `[0, 100]`; manual marks store a null
confidence. -/
theorem confidence_amended (d : ℚ) (id : Int) (today : String)
    (h0 : 0 ≤ d) (h1 : d ≤ 1) :
    |confMarkLabel d - (1 - d)| ≤ 1/2000 ∧
    0 ≤ confMarkLabel d ∧ confMarkLabel d ≤ 1 ∧
    |confScannerBatch d - (1 - d) * 100| ≤ 1/200 ∧
    0 ≤ confScannerBatch d ∧ confScannerBatch d ≤ 100 ∧
    (manualSessionRecord id today).confidence = none := by
  have hbL := round_nonneg_le ((1 - d) * 1000) 1000 (by linarith) (by push_cast; linarith)
  have hbS := round_nonneg_le ((1 - d) * 10000) 10000 (by linarith) (by push_cast; linarith)
  have habsL : |((round ((1 - d) * 1000) : ℤ) : ℚ) - (1 - d) * 1000| ≤ 1/2 := by
    rw [abs_sub_comm]
    exact abs_sub_round _
  have habsS : |((round ((1 - d) * 10000) : ℤ) : ℚ) - (1 - d) * 10000| ≤ 1/2 := by
    rw [abs_sub_comm]
    exact abs_sub_round _
  have hcastL0 : (0 : ℚ) ≤ ((round ((1 - d) * 1000) : ℤ) : ℚ) := by exact_mod_cast hbL.1
  have hcastL1 : ((round ((1 - d) * 1000) : ℤ) : ℚ) ≤ 1000 := by exact_mod_cast hbL.2
  have hcastS0 : (0 : ℚ) ≤ ((round ((1 - d) * 10000) : ℤ) : ℚ) := by exact_mod_cast hbS.1
  have hcastS1 : ((round ((1 - d) * 10000) : ℤ) : ℚ) ≤ 10000 := by exact_mod_cast hbS.2
  refine ⟨?_, ?_, ?_, ?_, ?_, ?_, rfl⟩
  · rw [confMarkLabel, jsRound_eq_round]
    have hd : ((round ((1 - d) * 1000) : ℤ) : ℚ) / 1000 - (1 - d)
        = (((round ((1 - d) * 1000) : ℤ) : ℚ) - (1 - d) * 1000) / 1000 := by ring
    rw [hd, abs_div]
    have h1000 : |(1000 : ℚ)| = 1000 := by norm_num
    rw [h1000]
    linarith [habsL]
  · rw [confMarkLabel, jsRound_eq_round]
    exact div_nonneg hcastL0 (by norm_num)
  · rw [confMarkLabel, jsRound_eq_round]
    rw [div_le_one (by norm_num)]
    exact hcastL1
  · rw [confScannerBatch, jsRound_eq_round]
    have hd : ((round ((1 - d) * 10000) : ℤ) : ℚ) / 100 - (1 - d) * 100
        = (((round ((1 - d) * 10000) : ℤ) : ℚ) - (1 - d) * 10000) / 100 := by ring
    rw [hd, abs_div]
    have h100 : |(100 : ℚ)| = 100 := by norm_num
    rw [h100]
    linarith [habsS]
  · rw [confScannerBatch, jsRound_eq_round]
    exact div_nonneg hcastS0 (by norm_num)
  · rw [confScannerBatch, jsRound_eq_round]
    rw [div_le_iff₀ (by norm_num)]
    linarith [hcastS1]

/-- C9 witness: at distance `d = 0` the amended statement holds concretely. -/
theorem confidence_amended_witness :
    (0 : ℚ) ≤ 0 ∧ (0 : ℚ) ≤ 1 ∧
    (|confMarkLabel 0 - (1 - 0)| ≤ 1/2000 ∧
    0 ≤ confMarkLabel 0 ∧ confMarkLabel 0 ≤ 1 ∧
    |confScannerBatch 0 - (1 - 0) * 100| ≤ 1/200 ∧
    0 ≤ confScannerBatch 0 ∧ confScannerBatch 0 ≤ 100 ∧
    (manualSessionRecord 5 "2024-03-01").confidence = none) :=
  ⟨le_refl 0, zero_le_one, confidence_amended 0 5 "2024-03-01" (le_refl 0) zero_le_one⟩

end SRM
